import Mathlib

/-!
Verification of the C-Bencoder repository (src/src/bencode.c, src/src/structs.c
and their headers) against its natural-language specification.

The decoder is shallowly embedded: C `char*` buffer suffixes become `List Char`,
the `exit()` error paths become constructors of `BErr`, and the global flag
`pieces` (Binary-Payload Mode) is threaded explicitly as a `Bool`, mirroring the
fact that every call site passes the current value of the global as `p_flag`.
Scans of the buffer that the C code performs without a bounds check (and that
would read past the end of the buffer) are modelled by the dedicated outcome
`BErr.undefinedAccess`, which corresponds to NO reported error in the C code.
The recursive container decoders are given an explicit fuel parameter so that
the definitions are structurally recursive and computable; fuel exhaustion is
the artificial outcome `BErr.outOfFuel`, never reached on the inputs used here.
-/

namespace CBencoder

/-- The B_TYPE enum of structs.h: B_INT, B_STR, B_LIS, B_DICT, B_HEX, B_NULL. -/
inductive B_TYPE where
  | bInt
  | bStr
  | bLis
  | bDict
  | bHex
  | bNull
deriving DecidableEq

/-- Error outcomes of the decoder.  The first four model the `fprintf` + `exit`
paths of bencode.c (the FormatError family of the spec).  `keyTypeError` is
modelled from the spec: §7 lists a KeyTypeError for a dictionary key decoding to
a non-string variant; no code path in the source produces it, and it is included
only so that claims mentioning it are statable.  `undefinedAccess` models an
unchecked scan or read running past the available buffer, or a read of a union
field that the stored variant does not populate: the C code reports no error
there.  `outOfFuel` is an artifact of the fuel-bounded model. -/
inductive BErr where
  | leadingZero
  | negativeLength
  | unrecognized (c : Char)
  | keyTypeError
  | undefinedAccess
  | outOfFuel
deriving DecidableEq

/-- Classifies which error outcomes correspond to a reported fatal error in the
source (an `fprintf(stderr, ...)` followed by `exit`): the unchecked-access and
fuel outcomes are not reported by any code path. -/
def BErr.isReported : BErr → Bool
  | .leadingZero => true
  | .negativeLength => true
  | .unrecognized _ => true
  | .keyTypeError => true
  | .undefinedAccess => false
  | .outOfFuel => false

/-- The value tree of structs.h, flattened: `int` and `str` mirror `b_element`
(encoded form, decoded form, lenght — the field name keeps the spelling of the
source), `hex` mirrors `b_pieces` (raw bytes and lenght), `lis` mirrors `b_list`
and `dict` mirrors `b_dict` (nodes of the linked list become a Lean list, plus
the stored encoded form and lenght). -/
inductive BObj where
  | int (encoded decoded : List Char) (lenght : Nat)
  | str (encoded decoded : List Char) (lenght : Nat)
  | hex (decodedPieces : List Char) (lenght : Nat)
  | lis (elems : List BObj) (encoded : List Char) (lenght : Nat)
  | dict (pairs : List (BObj × BObj)) (encoded : List Char) (lenght : Nat)

/-- Reading `object->int_str->lenght`: populated only for the B_INT and B_STR
variants; for the other variants the C union read is undefined. -/
def BObj.intStrLenght : BObj → Option Nat
  | .int _ _ n => some n
  | .str _ _ n => some n
  | _ => none

/-- Reading `object->pieces->lenght`: populated only for the B_HEX variant. -/
def BObj.piecesLenght : BObj → Option Nat
  | .hex _ n => some n
  | _ => none

/-- Reading `object->list->lenght`: populated only for the B_LIS variant. -/
def BObj.listLenght : BObj → Option Nat
  | .lis _ _ n => some n
  | _ => none

/-- Reading `object->dict->lenght`: populated only for the B_DICT variant. -/
def BObj.dictLenght : BObj → Option Nat
  | .dict _ _ n => some n
  | _ => none

/-- The lenght field of whichever variant is stored (the consumed length of the
encoded form, as recorded by the decoder). -/
def BObj.consumedLenght : BObj → Nat
  | .int _ _ n => n
  | .str _ _ n => n
  | .hex _ n => n
  | .lis _ _ n => n
  | .dict _ _ n => n

/-- Whether the object is the B_STR variant. -/
def BObj.isStr : BObj → Bool
  | .str _ _ _ => true
  | _ => false

/-- Reading `object->int_str->decoded_element`: the decoded text of an integer
or string variant; undefined (modelled as the empty list) otherwise. -/
def BObj.strDecoded : BObj → List Char
  | .int _ d _ => d
  | .str _ d _ => d
  | _ => []

/-- A stored byte buffer viewed as a C string: everything up to the first NUL
byte, which is where `strcmp` and `printf` stop. -/
def cStr (s : List Char) : List Char :=
  s.takeWhile (fun c => c ≠ Char.ofNat 0)

/-- The literal key that triggers Binary-Payload Mode. -/
def piecesChars : List Char := ['p', 'i', 'e', 'c', 'e', 's']

/-- The decoded C-string text used when an object is compared as a dictionary
key (`key->object->int_str->decoded_element` under `strcmp`). -/
def BObj.keyText (o : BObj) : List Char := cStr o.strDecoded

/-- type_to_decode of bencode.c: inspects one byte and selects the decoder.
The exact if-chain of the source: 'i', then a decimal digit, then 'l', then
'd', anything else is B_NULL.  It can never produce B_HEX. -/
def type_to_decode (start : Char) : B_TYPE :=
  if start = 'i' then .bInt
  else if '0' ≤ start ∧ start ≤ '9' then .bStr
  else if start = 'l' then .bLis
  else if start = 'd' then .bDict
  else .bNull

/-- The decimal value of the leading digit run of a character list (what C
`atoi` computes after sign handling). -/
def digitsToNat (s : List Char) : Nat :=
  (s.takeWhile Char.isDigit).foldl (fun a c => a * 10 + (c.toNat - 48)) 0

/-- C `atoi`: skip whitespace, an optional sign, then leading digits; a string
with no leading digits yields 0. -/
def c_atoi (s : List Char) : Int :=
  let t := s.dropWhile (fun c => c = ' ' || c = '\t' || c = '\n' || c = '\r')
  match t with
  | '-' :: rest => - (digitsToNat rest : Int)
  | '+' :: rest => (digitsToNat rest : Int)
  | _ => (digitsToNat t : Int)

/-- Position of the first 'e' in the buffer, if any: the unchecked
`while (bencoded_obj[i] != 'e') i++;` scan of get_bencoded_int. -/
def scanToE : List Char → Option Nat
  | [] => none
  | c :: cs => if c = 'e' then some 0 else (scanToE cs).map (fun i => i + 1)

/-- Position of the first ':' in the buffer, if any: the unchecked
`while (bencoded_string[start_idx] != ':') start_idx++;` scan of
test_decode_string. -/
def scanToColon : List Char → Option Nat
  | [] => none
  | c :: cs => if c = ':' then some 0 else (scanToColon cs).map (fun i => i + 1)

/-- get_bencoded_int of bencode.c: scan forward to the terminator 'e' and
return the extracted span including it.  The C loop has no bounds check, so a
buffer with no 'e' makes it read past the end: that is `BErr.undefinedAccess`,
not a reported error. -/
def get_bencoded_int (s : List Char) : Except BErr (List Char) :=
  match scanToE s with
  | some i => .ok (s.take (i + 1))
  | none => .error .undefinedAccess

/-- test_decode_integer of bencode.c: records lenght = strlen, rejects a
leading zero via the literal test `bencoded_int[1] == '0' &&
bencoded_int[2] != 'e'` (reads past a short string hit the NUL terminator,
modelled by the default `Char.ofNat 0`), and stores the digit text between the
'i' and the final 'e' together with the whole encoded span. -/
def test_decode_integer (s : List Char) : Except BErr BObj :=
  if s.getD 1 (Char.ofNat 0) = '0' ∧ s.getD 2 (Char.ofNat 0) ≠ 'e' then
    .error .leadingZero
  else
    .ok (.int s ((s.drop 1).take (s.length - 2)) s.length)

/-- test_decode_string of bencode.c.  `s` is the buffer suffix starting at the
length prefix; `p_flag` is the value of the global `pieces` flag that every
call site passes.  Steps of the source: `atoi` the prefix, reject a negative
length with exit(-1), scan (unchecked) for the ':' separator, then either
build a B_HEX object — copying `lenght + start_idx` bytes and recording
`lenght + start_idx`, exactly the over-long bookkeeping of the source — and
clear the flag, or build a B_STR object holding the payload and the encoded
span `lenght + start_idx`, setting the flag when the decoded text compares
equal (as a C string) to "pieces".  Reads that would run past the supplied
buffer are `BErr.undefinedAccess`.  The returned Bool is the new value of the
global flag. -/
def test_decode_string (s : List Char) (p_flag : Bool) :
    Except BErr (BObj × Bool) :=
  if c_atoi s < 0 then .error .negativeLength
  else
    match scanToColon s with
    | none => .error .undefinedAccess
    | some cpos =>
      match p_flag with
      | true =>
        if cpos + 1 + ((c_atoi s).toNat + (cpos + 1)) ≤ s.length then
          .ok (.hex ((s.drop (cpos + 1)).take ((c_atoi s).toNat + (cpos + 1)))
                ((c_atoi s).toNat + (cpos + 1)), false)
        else .error .undefinedAccess
      | false =>
        if (c_atoi s).toNat + (cpos + 1) ≤ s.length then
          .ok (.str (s.take ((c_atoi s).toNat + (cpos + 1)))
                ((s.drop (cpos + 1)).take (c_atoi s).toNat)
                ((c_atoi s).toNat + (cpos + 1)),
              cStr ((s.drop (cpos + 1)).take (c_atoi s).toNat) == piecesChars)
        else .error .undefinedAccess

/-- Pending work for the fuel-bounded container-decoder recursion: the element
loop of test_decode_list (`onList`) and the key/value loop of test_decode_dict
(`onDict`), each carrying the buffer suffix that the C call received, the
cursor `idx`, the accumulated container contents, and the threaded flag. -/
inductive LoopTask where
  | onList (s : List Char) (idx : Nat) (acc : List BObj) (flag : Bool)
  | onDict (s : List Char) (idx : Nat) (acc : List (BObj × BObj)) (flag : Bool)

/-- Outcome of a decoder loop: the collected elements (or pairs), the index of
the terminating 'e', and the final flag. -/
inductive LoopOut where
  | listOut (elems : List BObj) (idx : Nat) (flag : Bool)
  | dictOut (pairs : List (BObj × BObj)) (idx : Nat) (flag : Bool)

/-- The while-loops of test_decode_list and test_decode_dict of bencode.c,
combined into one structurally recursive function on the fuel so that the
model stays computable by reduction.  Each iteration reads the byte at the
cursor (`undefinedAccess` past the end), stops at 'e', and otherwise follows
the switch of the source: B_INT extracts and decodes an integer, B_STR calls
the string decoder with the current flag and advances by `pieces->lenght` or
`int_str->lenght` depending on the flag (exactly the two branches of the C
switch), B_LIS and B_DICT recurse, building the sub-objects wrapper — encoded
copy of `idx + 1` bytes and lenght `idx + 1` — inline, and B_NULL is the
reported fatal exit.  A B_HEX dispatch result has no case in the C switch, so
the loop would repeat with the cursor unchanged; the model does the same (and
runs out of fuel), but type_to_decode never returns B_HEX.  The dictionary
loop decodes the key by calling the string decoder directly — no dispatch on
the key and no key-type check, as in the source — and then advances by the
union read `key->object->int_str->lenght`, undefined whenever the key is not
an integer/string variant. -/
def decodeLoop : Nat → LoopTask → Except BErr LoopOut
  | 0, _ => .error .outOfFuel
  | f + 1, .onList s idx acc flag =>
    match s[idx]? with
    | none => .error .undefinedAccess
    | some c =>
      if c = 'e' then .ok (.listOut acc idx flag)
      else
        match type_to_decode c with
        | .bInt =>
          match get_bencoded_int (s.drop idx) with
          | .error e => .error e
          | .ok bi =>
            match test_decode_integer bi with
            | .error e => .error e
            | .ok o =>
              match o.intStrLenght with
              | none => .error .undefinedAccess
              | some n => decodeLoop f (.onList s (idx + n) (acc ++ [o]) flag)
        | .bStr =>
          match test_decode_string (s.drop idx) flag with
          | .error e => .error e
          | .ok (o, flag') =>
            match flag with
            | true =>
              match o.piecesLenght with
              | none => .error .undefinedAccess
              | some n => decodeLoop f (.onList s (idx + n) (acc ++ [o]) flag')
            | false =>
              match o.intStrLenght with
              | none => .error .undefinedAccess
              | some n => decodeLoop f (.onList s (idx + n) (acc ++ [o]) flag')
        | .bLis =>
          match decodeLoop f (.onList (s.drop idx) 1 [] flag) with
          | .error e => .error e
          | .ok (.dictOut _ _ _) => .error .undefinedAccess
          | .ok (.listOut elems j flag') =>
            decodeLoop f (.onList s (idx + (j + 1))
              (acc ++ [.lis elems ((s.drop idx).take (j + 1)) (j + 1)]) flag')
        | .bDict =>
          match decodeLoop f (.onDict (s.drop idx) 1 [] flag) with
          | .error e => .error e
          | .ok (.listOut _ _ _) => .error .undefinedAccess
          | .ok (.dictOut pairs j flag') =>
            decodeLoop f (.onList s (idx + (j + 1))
              (acc ++ [.dict pairs ((s.drop idx).take (j + 1)) (j + 1)]) flag')
        | .bHex => decodeLoop f (.onList s idx acc flag)
        | .bNull => .error (.unrecognized c)
  | f + 1, .onDict s idx acc flag =>
    match s[idx]? with
    | none => .error .undefinedAccess
    | some c =>
      if c = 'e' then .ok (.dictOut acc idx flag)
      else
        match test_decode_string (s.drop idx) flag with
        | .error e => .error e
        | .ok (key, flag₁) =>
          match key.intStrLenght with
          | none => .error .undefinedAccess
          | some kn =>
            match s[idx + kn]? with
            | none => .error .undefinedAccess
            | some vc =>
              match type_to_decode vc with
              | .bInt =>
                match get_bencoded_int (s.drop (idx + kn)) with
                | .error e => .error e
                | .ok bi =>
                  match test_decode_integer bi with
                  | .error e => .error e
                  | .ok o =>
                    match o.intStrLenght with
                    | none => .error .undefinedAccess
                    | some n =>
                      decodeLoop f (.onDict s (idx + kn + n)
                        (acc ++ [(key, o)]) flag₁)
              | .bStr =>
                match test_decode_string (s.drop (idx + kn)) flag₁ with
                | .error e => .error e
                | .ok (o, flag₂) =>
                  match flag₁ with
                  | true =>
                    match o.piecesLenght with
                    | none => .error .undefinedAccess
                    | some n =>
                      decodeLoop f (.onDict s (idx + kn + n)
                        (acc ++ [(key, o)]) flag₂)
                  | false =>
                    match o.intStrLenght with
                    | none => .error .undefinedAccess
                    | some n =>
                      decodeLoop f (.onDict s (idx + kn + n)
                        (acc ++ [(key, o)]) flag₂)
              | .bLis =>
                match decodeLoop f (.onList (s.drop (idx + kn)) 1 [] flag₁) with
                | .error e => .error e
                | .ok (.dictOut _ _ _) => .error .undefinedAccess
                | .ok (.listOut elems j flag') =>
                  decodeLoop f (.onDict s (idx + kn + (j + 1))
                    (acc ++ [(key, .lis elems ((s.drop (idx + kn)).take (j + 1))
                      (j + 1))]) flag')
              | .bDict =>
                match decodeLoop f (.onDict (s.drop (idx + kn)) 1 [] flag₁) with
                | .error e => .error e
                | .ok (.listOut _ _ _) => .error .undefinedAccess
                | .ok (.dictOut pairs j flag') =>
                  decodeLoop f (.onDict s (idx + kn + (j + 1))
                    (acc ++ [(key, .dict pairs
                      ((s.drop (idx + kn)).take (j + 1)) (j + 1))]) flag')
              | .bHex => decodeLoop f (.onDict s (idx + kn) acc flag₁)
              | .bNull => .error (.unrecognized vc)

/-- test_decode_list of bencode.c: run the element loop from index 1, then
record lenght = idx + 1 and the encoded copy of idx + 1 bytes. -/
def test_decode_list (fuel : Nat) (s : List Char) (flag : Bool) :
    Except BErr (BObj × Bool) :=
  match decodeLoop fuel (.onList s 1 [] flag) with
  | .error e => .error e
  | .ok (.dictOut _ _ _) => .error .undefinedAccess
  | .ok (.listOut elems idx flag') =>
    .ok (.lis elems (s.take (idx + 1)) (idx + 1), flag')

/-- test_decode_dict of bencode.c: run the key/value loop from index 1, then
record lenght = idx + 1 and the encoded copy of idx + 1 bytes. -/
def test_decode_dict (fuel : Nat) (s : List Char) (flag : Bool) :
    Except BErr (BObj × Bool) :=
  match decodeLoop fuel (.onDict s 1 [] flag) with
  | .error e => .error e
  | .ok (.listOut _ _ _) => .error .undefinedAccess
  | .ok (.dictOut pairs idx flag') =>
    .ok (.dict pairs (s.take (idx + 1)) (idx + 1), flag')

/-- find_by_key / get_info_dict of structs.c: walk the pairs of the dictionary
in stored (insertion) order, compare the search key with each stored key text
via `strcmp`, and return the first matching value; an exhausted walk is the
NOT FOUND outcome (`none`), a normal result, not an abort.  The traversal
only reads the structure. -/
def find_by_key : List (BObj × BObj) → List Char → Option BObj
  | [], _ => none
  | p :: rest, key =>
    if p.1.keyText = cStr key then some p.2 else find_by_key rest key

/-- Decimal digits of a natural number, for reconstructing length prefixes. -/
def natChars (n : Nat) : List Char := (Nat.repr n).toList

/-- Pending work for the fuel-bounded serializer recursion. -/
inductive SerTask where
  | one (o : BObj)
  | many (l : List BObj)
  | pairList (l : List (BObj × BObj))

/-- Modelled from the spec: §4.6 Serialize — the repository has no serializer
(src holds only the decoder and print routines), so this reconstructs, for
each variant, the canonical bencode byte sequence from the decoded
representation: `i<n>e` from the stored digit text, `<len>:<bytes>` from the
stored payload (for BinaryBlob, the length-prefixed form from the raw bytes),
and `l...e` / `d...e` around the serialized children in stored order.  Fuel
makes the nested recursion structural; it is irrelevant once it exceeds the
tree depth. -/
def serializeGo : Nat → SerTask → List Char
  | 0, _ => []
  | f + 1, .one o =>
    match o with
    | .int _ d _ => 'i' :: (d ++ ['e'])
    | .str _ d _ => natChars d.length ++ ':' :: d
    | .hex b _ => natChars b.length ++ ':' :: b
    | .lis elems _ _ => 'l' :: (serializeGo f (.many elems) ++ ['e'])
    | .dict ps _ _ => 'd' :: (serializeGo f (.pairList ps) ++ ['e'])
  | _ + 1, .many [] => []
  | f + 1, .many (o :: os) =>
    serializeGo f (.one o) ++ serializeGo f (.many os)
  | _ + 1, .pairList [] => []
  | f + 1, .pairList (p :: ps) =>
    serializeGo f (.one p.1) ++ serializeGo f (.one p.2) ++
      serializeGo f (.pairList ps)

/-- Modelled from the spec: the serializer at a fuel bound far above the depth
of any tree appearing here. -/
def serialize (o : BObj) : List Char := serializeGo 100 (.one o)

/-- The fixed 8-byte client-identifier prefix of generate_peer_id, the ASCII
bytes of "-GS0001-". -/
def clientIdBytes : List Nat := [45, 71, 83, 48, 48, 48, 49, 45]

/-- generate_peer_id of bencode.c: write the fixed 8-byte client identifier
into bytes 0..7 of the output and the first 12 bytes of SHA1(peer_key) into
bytes 8..19.  SHA1 comes from OpenSSL (an external collaborator per §1/§6 of
the spec), so the digest is abstracted as a function parameter: any fixed
deterministic digest function, which is what the C call provides. -/
def generate_peer_id (sha1 : List Nat → List Nat) (peer_key : List Nat) :
    List Nat :=
  clientIdBytes ++ (sha1 peer_key).take 12

/-- The bytes of the bencode document "di1e1:i2ee": a dictionary whose key
position holds the integer encoding "i1e1:"-misread — the key slot starts with
the byte 'i'. -/
def c1input : List Char := ['d', 'i', '1', 'e', '1', ':', 'i', '2', 'e', 'e']

/-- The bytes of "di1ee": a dictionary whose key position holds an integer and
whose span contains no ':' at all. -/
def c1badInput : List Char := ['d', 'i', '1', 'e', 'e']

/-- The bytes of "d6:pieces3:xyz1:a1:be": the key "pieces" followed by the
3-byte string value "xyz", then a sibling pair ("a", "b"). -/
def c2input : List Char :=
  ['d', '6', ':', 'p', 'i', 'e', 'c', 'e', 's', '3', ':', 'x', 'y', 'z',
   '1', ':', 'a', '1', ':', 'b', 'e']

/-- The bytes the decoder actually stores for the "pieces" value of `c2input`:
the 3-byte payload plus the following 2 bytes of the buffer. -/
def c2blobBytes : List Char := ['x', 'y', 'z', '1', ':']

/-- The bytes of the list document "l6:piecese": a list (not a dictionary)
whose single element is the string "pieces". -/
def c3listInput : List Char :=
  ['l', '6', ':', 'p', 'i', 'e', 'c', 'e', 's', 'e']

/-- The bytes of "d6:pieces3:abc1:k1:ve": a syntactically valid, minimal
bencode dictionary containing a "pieces" entry with 3-byte value "abc". -/
def c5input : List Char :=
  ['d', '6', ':', 'p', 'i', 'e', 'c', 'e', 's', '3', ':', 'a', 'b', 'c',
   '1', ':', 'k', '1', ':', 'v', 'e']

/-- The value tree the decoder produces for `c5input`: the "pieces" value is
stored as a 5-byte blob recording lenght 5. -/
def c5value : BObj :=
  .dict [(.str ['6', ':', 'p', 'i', 'e', 'c', 'e', 's'] piecesChars 8,
          .hex ['a', 'b', 'c', '1', ':'] 5),
         (.str ['1', ':', 'k'] ['k'] 3, .str ['1', ':', 'v'] ['v'] 3)]
    c5input 21

/-- The bytes of the nesting example "li1el3:fooee" of §8 of the spec: twelve
bytes in all. -/
def c6input : List Char :=
  ['l', 'i', '1', 'e', 'l', '3', ':', 'f', 'o', 'o', 'e', 'e']

/-- The value tree the decoder produces for `c6input`: the integer 1 followed
by the inner list holding "foo", inner lenght 7, outer lenght 12. -/
def c6value : BObj :=
  .lis [.int ['i', '1', 'e'] ['1'] 3,
        .lis [.str ['3', ':', 'f', 'o', 'o'] ['f', 'o', 'o'] 5]
          ['l', '3', ':', 'f', 'o', 'o', 'e'] 7]
    c6input 12

theorem scanToE_eq_none_of_not_mem (s : List Char) (h : 'e' ∉ s) :
    scanToE s = none := by
  induction s with
  | nil => rfl
  | cons c cs ih =>
    rw [List.mem_cons, not_or] at h
    obtain ⟨h1, h2⟩ := h
    simp only [scanToE]
    rw [if_neg (fun hc => h1 hc.symm), ih h2]
    rfl

/-- Claim C1 (counterexample): the dictionary decoder is claimed to dispatch
on each key and abort with a KeyTypeError for a non-string key, never parsing
one silently.  On "di1e1:i2ee" the key position starts with 'i' (the
dispatcher maps 'i' to B_INT, not B_STR), yet the decode succeeds: the string
decoder is applied to the key position directly and silently yields an empty
ByteString key of consumed length 5, with the integer 2 as its value. -/
theorem c1_counterexample :
    test_decode_dict 100 c1input false =
      .ok (.dict [(.str ['i', '1', 'e', '1', ':'] [] 5,
                   .int ['i', '2', 'e'] ['2'] 3)] c1input 10, false) ∧
    type_to_decode 'i' = B_TYPE.bInt := ⟨rfl, rfl⟩

/-- Claim C1 (amended): the dictionary decoder never invokes the type
dispatcher on a key and has no KeyTypeError; it applies the string decoder to
the key position directly, so a non-string key is silently parsed as a
ByteString when a ':' occurs later in the buffer ("di1e1:i2ee" succeeds), and
otherwise the unchecked ':' scan runs past the end of the buffer
("di1ee" gives the unreported undefinedAccess outcome, not a KeyTypeError). -/
theorem c1_amended :
    test_decode_dict 100 c1input false =
      .ok (.dict [(.str ['i', '1', 'e', '1', ':'] [] 5,
                   .int ['i', '2', 'e'] ['2'] 3)] c1input 10, false) ∧
    test_decode_dict 100 c1badInput false = .error .undefinedAccess ∧
    BErr.undefinedAccess ≠ BErr.keyTypeError ∧
    type_to_decode 'i' ≠ B_TYPE.bStr := ⟨rfl, rfl, by decide, by decide⟩

/-- Claim C2 (code bug): a dictionary whose "pieces" value is a byte-string of
declared length 3 is claimed to produce a BinaryBlob of exactly 3 raw bytes
recording length 3.  The decoder instead copies and records
`length + prefix-and-colon span` = 5: the blob holds the 5 bytes "xyz1:" (the
payload plus the two following buffer bytes) and records lenght 5 — the
bookkeeping slip the source itself flags in the test_decode_string comment. -/
theorem c2_blob_lenght_bug :
    test_decode_dict 100 c2input false =
      .ok (.dict [(.str ['6', ':', 'p', 'i', 'e', 'c', 'e', 's'] piecesChars 8,
                   .hex c2blobBytes 5),
                  (.str ['1', ':', 'a'] ['a'] 3, .str ['1', ':', 'b'] ['b'] 3)]
        c2input 21, false) ∧
    c2blobBytes.length = 5 ∧ (5 : Nat) ≠ 3 := ⟨rfl, rfl, by decide⟩

/-- Claim C3 (counterexample): Binary-Payload Mode is claimed to be set on the
dictionary key path only, never by a list element.  Decoding the list
"l6:piecese" from a clear flag ends with the flag SET: the string decoder sets
it for any normal-mode string whose text equals "pieces", including a list
element. -/
theorem c3_counterexample :
    test_decode_list 100 c3listInput false =
      .ok (.lis [.str ['6', ':', 'p', 'i', 'e', 'c', 'e', 's'] piecesChars 8]
        c3listInput 10, true) := rfl

/-- Claim C3 (amended): the string decoder itself sets Binary-Payload Mode
whenever a string decoded in normal mode has decoded text equal (as a C
string) to "pieces" — on every path, dictionary key, dictionary value or list
element alike — and decoding any one string while the mode is set returns the
mode cleared (one-shot). -/
theorem c3_amended :
    (∀ (s : List Char) (o : BObj) (f' : Bool),
        test_decode_string s false = .ok (o, f') →
        f' = (cStr o.strDecoded == piecesChars)) ∧
    (∀ (s : List Char) (o : BObj) (f' : Bool),
        test_decode_string s true = .ok (o, f') → f' = false) := by
  constructor
  · intro s o f' h
    by_cases h0 : c_atoi s < 0
    · simp [test_decode_string, h0] at h
    · cases hc : scanToColon s with
      | none => simp [test_decode_string, h0, hc] at h
      | some cpos =>
        by_cases hb : (c_atoi s).toNat + (cpos + 1) ≤ s.length
        · simp [test_decode_string, h0, hc, hb] at h
          obtain ⟨ho, hf⟩ := h
          subst ho
          subst hf
          simp [BObj.strDecoded]
        · simp [test_decode_string, h0, hc, hb] at h
  · intro s o f' h
    by_cases h0 : c_atoi s < 0
    · simp [test_decode_string, h0] at h
    · cases hc : scanToColon s with
      | none => simp [test_decode_string, h0, hc] at h
      | some cpos =>
        by_cases hb : cpos + 1 + ((c_atoi s).toNat + (cpos + 1)) ≤ s.length
        · simp [test_decode_string, h0, hc, hb] at h
          exact h.2
        · simp [test_decode_string, h0, hc, hb] at h

/-- Claim C3 (witness): instantiating the amended theorem at the concrete
string "6:pieces" decoded in normal mode, whose result flag is set. -/
theorem c3_amended_witness :
    (true : Bool) =
      (cStr (BObj.str ['6', ':', 'p', 'i', 'e', 'c', 'e', 's']
        piecesChars 8).strDecoded == piecesChars) :=
  c3_amended.1 ['6', ':', 'p', 'i', 'e', 'c', 'e', 's']
    (BObj.str ['6', ':', 'p', 'i', 'e', 'c', 'e', 's'] piecesChars 8) true rfl

/-- Claim C4 (counterexample): "i-0e" is claimed to fail with a FormatError,
but the leading-zero test of the source only inspects byte 1, which here is
'-': the decode succeeds and stores the digit text "-0". -/
theorem c4_counterexample :
    test_decode_integer ['i', '-', '0', 'e'] =
      .ok (.int ['i', '-', '0', 'e'] ['-', '0'] 4) := rfl

/-- Claim C4 (amended): integer decoding rejects exactly the forms whose byte 1
is '0' and whose byte 2 is not the terminator (such as "i042e") with the
reported leading-zero FormatError; "i0e" succeeds and decodes to the digit
text "0"; and "i-0e" is NOT rejected — it succeeds and decodes to "-0". -/
theorem c4_amended :
    (∀ s : List Char,
        s.getD 1 (Char.ofNat 0) = '0' → s.getD 2 (Char.ofNat 0) ≠ 'e' →
        test_decode_integer s = .error .leadingZero) ∧
    test_decode_integer ['i', '0', 'e'] = .ok (.int ['i', '0', 'e'] ['0'] 3) ∧
    test_decode_integer ['i', '-', '0', 'e'] =
      .ok (.int ['i', '-', '0', 'e'] ['-', '0'] 4) := by
  refine ⟨?_, rfl, rfl⟩
  intro s h1 h2
  unfold test_decode_integer
  rw [if_pos ⟨h1, h2⟩]

/-- Claim C4 (witness): the amended theorem applied to the concrete leading
zero form "i07e". -/
theorem c4_amended_witness :
    test_decode_integer ['i', '0', '7', 'e'] = .error .leadingZero :=
  c4_amended.1 ['i', '0', '7', 'e'] rfl (by decide)

/-- Claim C5 (code bug): the round-trip serialize(decode(x)) = x is claimed
for every syntactically valid minimal input.  On the valid minimal document
"d6:pieces3:abc1:k1:ve" the decoder stores the "pieces" value as a 5-byte blob
(payload plus prefix span, the admitted length slip), so re-serializing yields
"d6:pieces5:abc1:1:k1:ve", a different byte sequence. -/
theorem c5_roundtrip_bug :
    test_decode_dict 100 c5input false = .ok (c5value, false) ∧
    serialize c5value ≠ c5input := ⟨rfl, by decide⟩

/-- Claim C6 (counterexample): "li1el3:fooee" is claimed to decode with outer
consumed length 10; the decoder records 12, which is also the byte length of
the whole span. -/
theorem c6_counterexample :
    test_decode_list 100 c6input false = .ok (c6value, false) ∧
    c6value.consumedLenght ≠ 10 := ⟨rfl, by decide⟩

/-- Claim C6 (amended): "li1el3:fooee" decodes to the [1, ["foo"]]-shaped
tree; the inner list records consumed length 7 and the outer list records
consumed length 12, the byte length of the whole 12-byte span (the 10 of the
spec miscounts the span). -/
theorem c6_amended :
    test_decode_list 100 c6input false = .ok (c6value, false) ∧
    c6value.consumedLenght = 12 ∧
    c6value = .lis [.int ['i', '1', 'e'] ['1'] 3,
        .lis [.str ['3', ':', 'f', 'o', 'o'] ['f', 'o', 'o'] 5]
          ['l', '3', ':', 'f', 'o', 'o', 'e'] 7] c6input 12 ∧
    c6input.length = 12 := ⟨rfl, rfl, rfl, rfl⟩

/-- Claim C7 (counterexample): on an integer slice with no terminator, the
extraction step is claimed to report a fatal unterminated-span error.  On
"i42" the unchecked scan instead runs past the end of the buffer — the
undefinedAccess outcome, which corresponds to no reported error in the
source. -/
theorem c7_counterexample :
    get_bencoded_int ['i', '4', '2'] = .error .undefinedAccess ∧
    BErr.isReported .undefinedAccess = false := ⟨rfl, rfl⟩

/-- Claim C7 (amended): the extraction scan assumes a terminator exists and
performs no bounds check: for every buffer containing no 'e' it runs past the
end (the undefinedAccess outcome) and reports no error. -/
theorem c7_amended (s : List Char) (h : 'e' ∉ s) :
    get_bencoded_int s = .error .undefinedAccess ∧
    BErr.isReported .undefinedAccess = false := by
  refine ⟨?_, rfl⟩
  unfold get_bencoded_int
  rw [scanToE_eq_none_of_not_mem s h]

/-- Claim C7 (witness): the amended theorem applied to the concrete
terminator-free buffer "i9". -/
theorem c7_amended_witness :
    get_bencoded_int ['i', '9'] = .error .undefinedAccess ∧
    BErr.isReported .undefinedAccess = false :=
  c7_amended ['i', '9'] (by decide)

/-- Claim C8: lookup-by-key scans the pairs in stored (insertion) order: when
no stored key text equals the search key the walk returns the NotFound result
`none` (a normal outcome, not an abort — and the pure traversal leaves the
pair list untouched), and when the list splits as pre ++ (k, v) :: rest with
no match in pre and k matching, it returns exactly the stored value v of that
first matching pair. -/
theorem c8_lookup :
    (∀ (pairs : List (BObj × BObj)) (key : List Char),
        (∀ p ∈ pairs, p.1.keyText ≠ cStr key) →
        find_by_key pairs key = none) ∧
    (∀ (pre : List (BObj × BObj)) (k v : BObj) (rest : List (BObj × BObj))
        (key : List Char),
        (∀ p ∈ pre, p.1.keyText ≠ cStr key) → k.keyText = cStr key →
        find_by_key (pre ++ (k, v) :: rest) key = some v) := by
  constructor
  · intro pairs key
    induction pairs with
    | nil => intro _; rfl
    | cons p rest ih =>
      intro h
      simp only [find_by_key]
      rw [if_neg (h p (List.mem_cons_self p rest))]
      exact ih (fun q hq => h q (List.mem_cons_of_mem p hq))
  · intro pre k v rest key
    induction pre with
    | nil =>
      intro _ hk
      simp only [List.nil_append, find_by_key]
      rw [if_pos hk]
    | cons p ps ih =>
      intro h hk
      simp only [List.cons_append, find_by_key]
      rw [if_neg (h p (List.mem_cons_self p ps))]
      exact ih (fun q hq => h q (List.mem_cons_of_mem p hq)) hk

/-- Claim C8 (witness): the lookup theorem applied to a concrete one-pair
dictionary and the absent key "z". -/
theorem c8_lookup_witness :
    find_by_key [(BObj.str ['1', ':', 'a'] ['a'] 3,
      BObj.int ['i', '5', 'e'] ['5'] 3)] ['z'] = none :=
  c8_lookup.1 [(BObj.str ['1', ':', 'a'] ['a'] 3,
    BObj.int ['i', '5', 'e'] ['5'] 3)] ['z'] (by decide)

/-- Claim C9: for every digest function and every seed, the peer-ID utility
produces the fixed 8-byte client identifier in bytes 0..7 followed by the
first 12 bytes of the digest of the seed in bytes 8..19; when the digest has
the SHA1 length 20 the output has exactly 20 bytes, and the output is a
function of the seed alone (same seed gives the same ID). -/
theorem c9_peer_id (sha1 : List Nat → List Nat) (peer_key : List Nat) :
    (generate_peer_id sha1 peer_key).take 8 = clientIdBytes ∧
    (generate_peer_id sha1 peer_key).drop 8 = (sha1 peer_key).take 12 ∧
    ((sha1 peer_key).length = 20 →
      (generate_peer_id sha1 peer_key).length = 20) ∧
    (∀ other : List Nat, other = peer_key →
      generate_peer_id sha1 other = generate_peer_id sha1 peer_key) := by
  refine ⟨?_, ?_, ?_, ?_⟩
  · simp [generate_peer_id, clientIdBytes]
  · simp [generate_peer_id, clientIdBytes]
  · intro h
    simp [generate_peer_id, clientIdBytes, List.length_take, h]
  · intro other hx
    rw [hx]

/-- Claim C9 (witness): the peer-ID theorem applied to a concrete digest
function of output length 20 and a concrete seed. -/
theorem c9_peer_id_witness :
    (generate_peer_id (fun _ => List.range 20) [7]).length = 20 :=
  (c9_peer_id (fun _ => List.range 20) [7]).2.2.1 (by simp)

/-- Claim C10: the type dispatcher never selects the BinaryBlob tag for any
lead byte, and the string decoder invoked with Binary-Payload Mode clear
always produces the B_STR variant — so a B_HEX value can only arise from the
string decoder when the mode is set. -/
theorem c10_no_hex_dispatch :
    (∀ c : Char, type_to_decode c ≠ B_TYPE.bHex) ∧
    (∀ (s : List Char) (r : BObj × Bool),
        test_decode_string s false = .ok r → r.1.isStr = true) := by
  constructor
  · intro c
    unfold type_to_decode
    split_ifs <;> decide
  · intro s r h
    obtain ⟨o, f'⟩ := r
    by_cases h0 : c_atoi s < 0
    · simp [test_decode_string, h0] at h
    · cases hc : scanToColon s with
      | none => simp [test_decode_string, h0, hc] at h
      | some cpos =>
        by_cases hb : (c_atoi s).toNat + (cpos + 1) ≤ s.length
        · simp [test_decode_string, h0, hc, hb] at h
          obtain ⟨ho, _⟩ := h
          subst ho
          rfl
        · simp [test_decode_string, h0, hc, hb] at h

/-- Claim C10 (witness): the dispatcher fact at the lead byte '4' together
with the string-decoder fact instantiated at the concrete buffer "1:a". -/
theorem c10_no_hex_dispatch_witness :
    (BObj.str ['1', ':', 'a'] ['a'] 3).isStr = true :=
  c10_no_hex_dispatch.2 ['1', ':', 'a']
    (BObj.str ['1', ':', 'a'] ['a'] 3, false) rfl

end CBencoder
